import Mathlib

/-!
Verification of `profiling_examples.py`: a shallow embedding in Lean 4 of the
module's demonstration routines and its command-line dispatcher, together with
theorems settling the specified behavioural claims.

Numeric values are modelled exactly over `ℚ` (the Python literals are decimal
fractions) and `ℕ`; console output is modelled as lists of printed lines;
the fail-fast assertion is modelled as an explicit outcome type.
-/

/-- Outcome of running the body of `assertion_example`: either the loop aborts
with an `AssertionError` (carrying the assertion message, the running total at
the abort point, and the unprocessed suffix of the list, starting with the
offending element), or the loop completes and the final total is printed. -/
inductive AssertOutcome where
  | aborted (message : String) (totalAtAbort : ℚ) (remaining : List ℚ)
  | printed (total : ℚ)
deriving DecidableEq

/-- The message of the assertion on line 30 of `profiling_examples.py`. -/
def assertionMessage : String := "Les dades han de contenir només valors positius"

/-- The loop of `assertion_example`: for each `n`, `assert n >= 0.0` (abort on
failure), otherwise `total += n`; on completion, print the total. -/
def assertionLoop (total : ℚ) : List ℚ → AssertOutcome
  | [] => AssertOutcome.printed total
  | n :: rest =>
      if 0 ≤ n then assertionLoop (total + n) rest
      else AssertOutcome.aborted assertionMessage total (n :: rest)

/-- The fixed input list of `assertion_example`:
`[1.5, 2.3, 0.7, -0.001, 4.4]`. -/
def assertionNumbers : List ℚ := [3/2, 23/10, 7/10, -1/1000, 22/5]

/-- `assertion_example`: runs the assertion loop on the fixed list, starting
from `total = 0.0`. -/
def assertion_example : AssertOutcome := assertionLoop 0 assertionNumbers

/-- The seven names advertised by `_list_functions`. -/
def advertised : List String :=
  ["assertion_example", "timing_example", "cprofile_example",
   "tracemalloc_example", "memory_profiler_example",
   "memory_profiler_eficient_example", "psutil_rss_example"]

/-- The lines printed by `_list_functions`. -/
def listOutput : List String :=
  "Funcions disponibles:" :: advertised.map (fun name => "  - " ++ name)

/-- The lines printed on the not-found branch of the dispatcher: the diagnostic
naming the unresolved function (the f-string ends in a newline), then the
output of `_list_functions`. -/
def notFoundLines (name : String) : List String :=
  ("Funció no trobada: " ++ name ++ "\n") :: listOutput

/-- The module-level global namespace at dispatch time, as a name-to-value
association where the value records only callability (`true` = callable).
The eight `def`-bound functions are callable; the dunder attributes, the
`annotations` future-feature object, the `argparse` module, and the
`parser`/`args` objects bound inside the `__main__` block are not. -/
def moduleGlobals : List (String × Bool) :=
  [("__name__", false), ("__doc__", false), ("annotations", false),
   ("assertion_example", true), ("timing_example", true),
   ("cprofile_example", true), ("tracemalloc_example", true),
   ("memory_profiler_example", true),
   ("memory_profiler_eficient_example", true),
   ("psutil_rss_example", true), ("_list_functions", true),
   ("argparse", false), ("parser", false), ("args", false)]

/-- `globals().get(name)`: `some b` when `name` is bound (with callability
`b`), `none` when absent. -/
def lookupGlobal (name : String) : Option Bool :=
  List.lookup name moduleGlobals

/-- Result of the `__main__` block: either the routine list is printed (no
`--func`, or a falsy empty string), a callable global is invoked, or the
not-found diagnostic plus the list is printed. No branch raises. -/
inductive DispatchResult where
  | listed (lines : List String)
  | invoked (name : String)
  | notFound (lines : List String)
deriving DecidableEq

/-- The `__main__` block of `profiling_examples.py`: `if not args.func`
print the list; else `fn = globals().get(args.func)`; `if callable(fn)`
invoke it, else print the not-found diagnostic and the list. -/
def dispatch : Option String → DispatchResult
  | none => DispatchResult.listed listOutput
  | some name =>
      if name = "" then DispatchResult.listed listOutput
      else
        match lookupGlobal name with
        | some true => DispatchResult.invoked name
        | some false => DispatchResult.notFound (notFoundLines name)
        | none => DispatchResult.notFound (notFoundLines name)

/-- Generalised form of the all-non-negative run of `assertionLoop`: no
element aborts and the printed total is the initial total plus the sum. -/
theorem assertionLoop_total (l : List ℚ) :
    ∀ total : ℚ, (∀ x ∈ l, 0 ≤ x) →
      assertionLoop total l = AssertOutcome.printed (total + l.sum) := by
  induction l with
  | nil => intro total _; simp [assertionLoop]
  | cons n rest ih =>
      intro total h
      have hn : 0 ≤ n := h n (List.mem_cons_self n rest)
      have hrest : ∀ x ∈ rest, 0 ≤ x := fun x hx => h x (List.mem_cons_of_mem n hx)
      rw [assertionLoop, if_pos hn, ih (total + n) hrest, List.sum_cons]
      ring_nf

/-- C1: on the fixed input `[1.5, 2.3, 0.7, -0.001, 4.4]`, `assertion_example`
aborts with the assertion message at the first negative element: the running
total at the abort is exactly `1.5 + 2.3 + 0.7`, the suffix starting at
`-0.001` (so in particular `4.4`) is never processed, and the outcome is an
abort, not a printed total. -/
theorem assertion_example_aborts :
    assertion_example =
      AssertOutcome.aborted assertionMessage (3/2 + 23/10 + 7/10)
        [-1/1000, 22/5] ∧
    ∀ t : ℚ, assertion_example ≠ AssertOutcome.printed t := by
  have h1 : assertion_example =
      AssertOutcome.aborted assertionMessage (3/2 + 23/10 + 7/10)
        [-1/1000, 22/5] := by
    norm_num [assertion_example, assertionNumbers, assertionLoop]
  refine ⟨h1, fun t h => ?_⟩
  rw [h1] at h
  exact AssertOutcome.noConfusion h

/-- C2: on any all-non-negative list, the defensive-check loop of
`assertion_example` completes without aborting and prints exactly the sum of
the list. -/
theorem assertion_all_nonneg_sums (l : List ℚ) (h : ∀ x ∈ l, 0 ≤ x) :
    assertionLoop 0 l = AssertOutcome.printed l.sum := by
  rw [assertionLoop_total l 0 h, zero_add]

/-- Witness for C2 at the concrete list `[1, 2, 0]`. -/
theorem assertion_all_nonneg_sums_witness :
    (∀ x ∈ ([1, 2, 0] : List ℚ), 0 ≤ x) ∧
      assertionLoop 0 [1, 2, 0] = AssertOutcome.printed ([1, 2, 0] : List ℚ).sum :=
  ⟨by norm_num, assertion_all_nonneg_sums [1, 2, 0] (by norm_num)⟩

/-- C10: the guard is non-strict: a leading `0.0` satisfies `n >= 0.0`, does
not abort, and contributes nothing to the running total, so the loop behaves
exactly as on the remaining elements. -/
theorem zero_passes_guard (total : ℚ) (rest : List ℚ) :
    assertionLoop total (0 :: rest) = assertionLoop total rest := by
  rw [assertionLoop, if_pos le_rfl, add_zero]

/-- C8: every one of the seven advertised names resolves to a callable in the
module globals, so dispatching any advertised name invokes it and never takes
the not-found branch. -/
theorem advertised_names_resolve (name : String) (h : name ∈ advertised) :
    lookupGlobal name = some true ∧
      dispatch (some name) = DispatchResult.invoked name := by
  fin_cases h <;> exact ⟨rfl, rfl⟩

/-- Witness for C8 at the advertised name `assertion_example`. -/
theorem advertised_names_resolve_witness :
    ("assertion_example" ∈ advertised) ∧
      dispatch (some "assertion_example") = DispatchResult.invoked "assertion_example" :=
  ⟨by decide, (advertised_names_resolve "assertion_example" (by decide)).2⟩

/-- C3 counterexample: `_list_functions` is not one of the seven registered
demonstration routines, yet dispatching it does not print the not-found
diagnostic — it is invoked, because the dispatcher looks names up in the
whole global namespace. -/
theorem dispatch_demo_only_counterexample :
    "_list_functions" ∉ advertised ∧
      dispatch (some "_list_functions") ≠
        DispatchResult.notFound (notFoundLines "_list_functions") ∧
      dispatch (some "_list_functions") = DispatchResult.invoked "_list_functions" := by
  refine ⟨by decide, ?_, rfl⟩
  intro h
  exact DispatchResult.noConfusion h

/-- C3 (amended): for every non-empty name that does not resolve to a callable
in the module globals, the dispatcher prints the not-found diagnostic naming
the unresolved function followed by the full list of the seven valid names,
raises nothing, and exits normally. -/
theorem dispatch_unresolved_not_found (name : String) (h0 : name ≠ "")
    (h : lookupGlobal name ≠ some true) :
    dispatch (some name) = DispatchResult.notFound (notFoundLines name) := by
  rw [dispatch, if_neg h0]
  cases hl : lookupGlobal name with
  | none => rfl
  | some b =>
      cases b with
      | false => rfl
      | true => exact absurd hl h

/-- Witness for C3 at the unbound name `numpy`. -/
theorem dispatch_unresolved_not_found_witness :
    dispatch (some "numpy") = DispatchResult.notFound (notFoundLines "numpy") :=
  dispatch_unresolved_not_found "numpy" (by decide) (by decide)

/-- C9: the dispatcher resolves names in the module globals, not in a closed
registry: every callable global (including `_list_functions`, outside the
advertised seven) is invoked when requested; every non-callable global, and
every absent name, takes the not-found branch without raising. -/
theorem dispatch_resolves_globals :
    (∀ p ∈ moduleGlobals, p.2 = true →
        dispatch (some p.1) = DispatchResult.invoked p.1) ∧
    (∀ p ∈ moduleGlobals, p.2 = false →
        dispatch (some p.1) = DispatchResult.notFound (notFoundLines p.1)) ∧
    dispatch (some "does_not_exist") =
      DispatchResult.notFound (notFoundLines "does_not_exist") := by
  refine ⟨?_, ?_, rfl⟩
  · intro p hp h2
    fin_cases hp <;> simp_all <;> rfl
  · intro p hp h2
    fin_cases hp <;> simp_all <;> rfl

/-- Witness for C9: the non-advertised callable `_list_functions` is invoked;
the non-callable global `argparse` takes the not-found branch. -/
theorem dispatch_resolves_globals_witness :
    dispatch (some "_list_functions") = DispatchResult.invoked "_list_functions" ∧
      dispatch (some "argparse") = DispatchResult.notFound (notFoundLines "argparse") :=
  ⟨dispatch_resolves_globals.1 ("_list_functions", true) (by decide) rfl,
   dispatch_resolves_globals.2.1 ("argparse", false) (by decide) rfl⟩

/-- The inner `work` of `memory_profiler_example`: build
`data = [i for i in range(500_000)]`, then `doubled = [x * 2 for x in data]`,
then return `sum(doubled)`. -/
def mp_work_naive : ℕ :=
  let data := List.range 500000
  let doubled := data.map (fun x => x * 2)
  doubled.sum

/-- The inner `work` of `memory_profiler_eficient_example`: `total = 0`, then
`total += i * 2` for `i` in `range(500_000)`, returning `total`. -/
def mp_work_eff : ℕ :=
  (List.range 500000).foldl (fun total i => total + i * 2) 0

/-- `memory_profiler_example`: if the `memory_profiler` import succeeds, run
the profiled workload and print its result; otherwise print the warning with
the exception text and the installation hint, and return without touching the
facility. Modelled output is the list of printed lines. -/
def memory_profiler_example (available : Bool) (errMsg : String) : List String :=
  if available then
    ["Resultat: " ++ toString mp_work_naive]
  else
    ["⚠️  memory_profiler no està disponible: " ++ errMsg,
     "Instal·la-la amb: pip install memory_profiler"]

/-- `memory_profiler_eficient_example`: the `except` branch rebinds `profile`
to an identity decorator, so the workload runs and its result is printed
whether or not `memory_profiler` imports. -/
def memory_profiler_eficient_example (_available : Bool) : List String :=
  ["Resultat (single-loop): " ++ toString mp_work_eff]

/-- `psutil_rss_example`: if the `psutil` import succeeds, print the three
formatted RSS readings (their values are runtime samples, taken as
parameters); otherwise print the warning with the exception text and the
installation hint, and return without touching the facility. -/
def psutil_rss_example (available : Bool) (errMsg : String)
    (r1 r2 r3 : String) : List String :=
  if available then
    ["RSS inicial: " ++ r1 ++ " MB",
     "RSS després d\x27allocar: " ++ r2 ++ " MB",
     "RSS final: " ++ r3 ++ " MB"]
  else
    ["⚠️  psutil no està disponible: " ++ errMsg,
     "Instal·la-la amb: pip install psutil"]

/-- C4: with the optional dependency unavailable, each affected routine prints
exactly its warning and installation hint — independent of the workload and of
the missing facility — and returns normally. -/
theorem optional_dependency_warns (e1 e2 r1 r2 r3 : String) :
    memory_profiler_example false e1 =
      ["⚠️  memory_profiler no està disponible: " ++ e1,
       "Instal·la-la amb: pip install memory_profiler"] ∧
    psutil_rss_example false e2 r1 r2 r3 =
      ["⚠️  psutil no està disponible: " ++ e2,
       "Instal·la-la amb: pip install psutil"] :=
  ⟨rfl, rfl⟩

/-- The doubled-range sum in closed form. -/
theorem sum_map_double (n : ℕ) :
    ((List.range n).map (fun x => x * 2)).sum = n * (n - 1) := by
  induction n with
  | zero => rfl
  | succ m ih =>
      rw [List.range_succ, List.map_append, List.sum_append, ih]
      simp only [List.map_cons, List.map_nil, List.sum_cons, List.sum_nil,
        Nat.add_zero, Nat.succ_sub_one]
      cases m with
      | zero => rfl
      | succ k => simp only [Nat.add_sub_cancel]; ring

/-- The accumulating fold computes the same sum as map-then-sum. -/
theorem foldl_double (l : List ℕ) :
    ∀ a : ℕ, l.foldl (fun total i => total + i * 2) a =
      a + (l.map (fun x => x * 2)).sum := by
  induction l with
  | nil => intro a; simp
  | cons x xs ih =>
      intro a
      rw [List.foldl_cons, List.map_cons, List.sum_cons, ih (a + x * 2)]
      omega

/-- C5: the single accumulating loop of the memory-efficient variant computes
the same number as the naive build-double-sum workload, namely 249999500000,
and the efficient variant prints that result whether or not the profiling
facility is available (the decorator degrades to a no-op). -/
theorem eficient_matches_naive :
    mp_work_eff = mp_work_naive ∧
    mp_work_naive = 249999500000 ∧
    ∀ available : Bool,
      memory_profiler_eficient_example available =
        ["Resultat (single-loop): 249999500000"] := by
  have hn : mp_work_naive = 249999500000 := by
    rw [mp_work_naive]
    simp only [sum_map_double]
  have he : mp_work_eff = mp_work_naive := by
    rw [mp_work_eff, mp_work_naive, foldl_double, Nat.zero_add]
  refine ⟨he, hn, fun available => ?_⟩
  rw [memory_profiler_eficient_example, he, hn]
  rfl

/-- One aggregated entry of the call-graph profiler's statistics table:
a function identifier together with its cumulative time. The profile data
itself is produced at runtime by the profiling facility, so entries are a
parameter of the model. -/
structure StatEntry where
  fn : String
  cumtime : ℚ
deriving DecidableEq

/-- The descending-cumulative-time order used by `sort_stats("cumtime")`. -/
def cumGE (a b : StatEntry) : Prop := b.cumtime ≤ a.cumtime

instance : DecidableRel cumGE :=
  fun a b => inferInstanceAs (Decidable (b.cumtime ≤ a.cumtime))

instance : IsTotal StatEntry cumGE := ⟨fun a b => le_total b.cumtime a.cumtime⟩

instance : IsTrans StatEntry cumGE := ⟨fun _ _ _ h1 h2 => le_trans h2 h1⟩

/-- `pstats.Stats(pr).strip_dirs().sort_stats("cumtime")`: sort the aggregated
entries by non-increasing cumulative time. -/
def sort_stats_cumtime (entries : List StatEntry) : List StatEntry :=
  List.insertionSort cumGE entries

/-- The report of `cprofile_example`: the profiler entries sorted by cumulative
time, truncated by `stats.print_stats(10)` to the top 10. -/
def cprofile_example (entries : List StatEntry) : List StatEntry :=
  (sort_stats_cumtime entries).take 10

/-- C6: whatever entries the profiler aggregates, the printed report of
`cprofile_example` holds at most 10 entries and is ordered by non-increasing
cumulative time. -/
theorem cprofile_report_top10_sorted (entries : List StatEntry) :
    (cprofile_example entries).length ≤ 10 ∧
      List.Sorted cumGE (cprofile_example entries) :=
  ⟨List.length_take_le 10 (sort_stats_cumtime entries),
   (List.sorted_insertionSort cumGE entries).sublist
     (List.take_sublist 10 (sort_stats_cumtime entries))⟩

/-- One live tracked allocation of the allocation tracer: the source line that
made it and its size in bytes. Modelled from the spec: the tracer attributes
to each line the bytes of the currently live allocations made at that line,
and a snapshot records that attribution at one point in time. -/
structure Alloc where
  line : ℕ
  size : ℕ
deriving DecidableEq

/-- Bytes a snapshot attributes to source line `ln`: the total size of the
live tracked allocations made at that line. -/
def snapshotBytes (live : List Alloc) (ln : ℕ) : ℕ :=
  ((live.filter (fun a => a.line == ln)).map (fun a => a.size)).sum

/-- The source lines of the allocation workload of `tracemalloc_example`
(`allocate_data`): line 71 builds the 300000-element list, line 72 the
150000-entry dict. Tracing starts immediately before the baseline snapshot,
so no live allocation at these lines is tracked in the baseline. -/
def workloadLines : List ℕ := [71, 72]

/-- C7: for every line touched only by the workload run between the two
snapshots, the bytes attributed by the baseline snapshot are zero, so the
second snapshot's attribution is at least the first's and the per-line delta
is non-negative. -/
theorem tracemalloc_delta_nonneg (snap1Live snap2Live : List Alloc) (ln : ℕ)
    (h1 : ∀ a ∈ snap1Live, a.line ∉ workloadLines) (h2 : ln ∈ workloadLines) :
    snapshotBytes snap1Live ln = 0 ∧
      snapshotBytes snap1Live ln ≤ snapshotBytes snap2Live ln := by
  have h0 : snapshotBytes snap1Live ln = 0 := by
    rw [snapshotBytes]
    have hf : snap1Live.filter (fun a => a.line == ln) = [] := by
      refine List.filter_eq_nil_iff.mpr fun a ha => ?_
      simp only [beq_iff_eq]
      intro he
      exact h1 a ha (he ▸ h2)
    rw [hf]
    rfl
  exact ⟨h0, h0 ▸ Nat.zero_le _⟩

/-- Witness for C7: a baseline with one allocation at a non-workload line,
a second snapshot with the workload's list and dict allocations, at line 71. -/
theorem tracemalloc_delta_nonneg_witness :
    (∀ a ∈ [Alloc.mk 58 96], a.line ∉ workloadLines) ∧ 71 ∈ workloadLines ∧
      snapshotBytes [Alloc.mk 58 96] 71 ≤
        snapshotBytes [Alloc.mk 71 2400000, Alloc.mk 72 5242880] 71 :=
  ⟨by decide, by decide,
   (tracemalloc_delta_nonneg [Alloc.mk 58 96]
     [Alloc.mk 71 2400000, Alloc.mk 72 5242880] 71 (by decide) (by decide)).2⟩
